import Mathlib

/-!
Verification development for the quiz-solving agent repository
(src/agent.py, src/tools.py, src/main.py).

The agent's control loop (`solve_quiz_task` in src/agent.py) is embedded as a
fuel-free fold over the explicit iteration list `range(1, max_steps)`, with the
external collaborators (the reasoning backend, the tool side effects, `json.loads`
and `urllib.parse.urljoin`) supplied as oracle fields of an `Env` record.
Python values flowing out of JSON decoding are modelled by the inductive `PVal`;
Python truthiness, `dict.get`, `dict[...]` indexing and `in` are modelled by the
matching helpers.  Wall-clock times (Python floats from `time.time()`) are
abstracted as integers: every claim about them is purely order-theoretic.
Python string operations used by the code (`str.split(sep, 1)[-1]`, `str.strip`,
`str.startswith`, `str.replace`, slicing) are implemented over `List Char` so
that every definition evaluates on concrete inputs.
-/

/-- Model of a Python value as produced by `json.loads` (plus `None`). -/
inductive PVal where
  | none
  | bool (b : Bool)
  | num (n : Int)
  | str (s : String)
  | list (xs : List PVal)
  | dict (entries : List (String × PVal))

/-- Python truthiness (`if v:`) for the modelled values. -/
def pvTruthy : PVal → Bool
  | PVal.none => false
  | PVal.bool b => b
  | PVal.num n => n != 0
  | PVal.str s => !s.isEmpty
  | PVal.list xs => !xs.isEmpty
  | PVal.dict es => !es.isEmpty

/-- Python `a or b` (value-returning, truthiness-based). -/
def pyOr (a b : PVal) : PVal := if pvTruthy a then a else b

/-- Whether `v` equals the Python string `s` (`v == "s"`; False for non-strings). -/
def pvIsStr (v : PVal) (s : String) : Bool :=
  match v with
  | PVal.str t => t == s
  | _ => false

/-- Lookup in a Python dict's entry list (first match; Python dicts have unique keys). -/
def dget (entries : List (String × PVal)) (k : String) : Option PVal :=
  (entries.find? (fun p => p.1 == k)).map (fun p => p.2)

/-- Python `d.get(k, dflt)`: raises (as `Except.error`) when the receiver is not a dict. -/
def pvGetD (v : PVal) (k : String) (dflt : PVal) : Except String PVal :=
  match v with
  | PVal.dict es => Except.ok ((dget es k).getD dflt)
  | _ => Except.error "AttributeError: object has no attribute get"

/-- Python `d[k]` on the modelled values: KeyError when the key is absent,
TypeError when the receiver is not a dict. -/
def pvIndex (v : PVal) (k : String) : Except String PVal :=
  match v with
  | PVal.dict es =>
    match dget es k with
    | some x => Except.ok x
    | Option.none => Except.error ("KeyError: " ++ k)
  | _ => Except.error "TypeError: object is not subscriptable"

/-- Python `k in d` for a dict value (only applied after an `isinstance(_, dict)` check). -/
def pvHasKey (v : PVal) (k : String) : Bool :=
  match v with
  | PVal.dict es => es.any (fun p => p.1 == k)
  | _ => false

/-- Python `str(v)` as used in f-strings; containers are rendered by a placeholder,
which no claim depends on. -/
def pvStr : PVal → String
  | PVal.none => "None"
  | PVal.bool true => "True"
  | PVal.bool false => "False"
  | PVal.num n => toString n
  | PVal.str s => s
  | PVal.list _ => "[python list]"
  | PVal.dict _ => "[python dict]"

/-- Python `type(v)` rendering for the `Action must be a dict` error message. -/
def pvType : PVal → String
  | PVal.none => "<class 'NoneType'>"
  | PVal.bool _ => "<class 'bool'>"
  | PVal.num _ => "<class 'int'>"
  | PVal.str _ => "<class 'str'>"
  | PVal.list _ => "<class 'list'>"
  | PVal.dict _ => "<class 'dict'>"

/-- Python dict update `d[k] = v`: overwrite in place when the key exists
(keeping its position), append otherwise. -/
def dictInsert : List (String × PVal) → String → PVal → List (String × PVal)
  | [], k, v => [(k, v)]
  | p :: t, k, v => if p.1 == k then (k, v) :: t else p :: dictInsert t k v

/-- A Python dict literal built from a key/value item sequence (later items
overwrite earlier ones, as `{"a": 1, **rest}` does). -/
def dictLit (items : List (String × PVal)) : List (String × PVal) :=
  items.foldl (fun d p => dictInsert d p.1 p.2) []

/-- The value the latest occurrence of key `k` carries in an item sequence. -/
def lastVal (items : List (String × PVal)) (k : String) : Option PVal :=
  (items.reverse.find? (fun p => p.1 == k)).map (fun p => p.2)

/-- Python `d[k] = v` on a `PVal` (no-op on non-dicts; only reached on dicts). -/
def pvSet (v : PVal) (k : String) (x : PVal) : PVal :=
  match v with
  | PVal.dict es => PVal.dict (dictInsert es k x)
  | other => other

/- ### Python string operations, implemented over `List Char` so they evaluate -/

/-- Python `s.startswith(pre)`. -/
def pyStartswith (s pre : String) : Bool :=
  pre.toList.isPrefixOf s.toList

/-- Drop the first `n` characters (Python `s[n:]` for `n ≥ 0`). -/
def charDrop (cs : List Char) (n : Nat) : List Char := cs.drop n

/-- `s.split(sep, 1)[-1]`: everything after the first occurrence of `sep`,
or the whole string when `sep` does not occur. -/
def splitOnceLastAux (sep cs : List Char) : Option (List Char) :=
  match cs with
  | [] => if sep.isEmpty then some [] else Option.none
  | c :: t =>
    if sep.isPrefixOf (c :: t) then some (charDrop (c :: t) sep.length)
    else splitOnceLastAux sep t

/-- Python `s.split(sep, 1)[-1]` on strings. -/
def splitOnceLast (s sep : String) : String :=
  match splitOnceLastAux sep.toList s.toList with
  | some suffix => String.mk suffix
  | Option.none => s

/-- Python `s.strip()`. -/
def pyStrip (s : String) : String :=
  String.mk (((s.toList.dropWhile Char.isWhitespace).reverse.dropWhile Char.isWhitespace).reverse)

/-- Python `s.replace(old, new)` (leftmost, non-overlapping). -/
def pyReplaceAux (old new : List Char) : List Char → List Char
  | [] => []
  | c :: t =>
    if h : old.isPrefixOf (c :: t) && !old.isEmpty then
      new ++ pyReplaceAux old new ((c :: t).drop old.length)
    else c :: pyReplaceAux old new t
termination_by cs => cs.length
decreasing_by
  · have hne : old ≠ [] := by
      intro he
      rw [he] at h
      simp [List.isEmpty] at h
    have h1 : 1 ≤ old.length := by
      cases old with
      | nil => exact absurd rfl hne
      | cons a b => simp
    simp [List.length_drop]
    omega
  · simp

/-- Python `s.replace(old, new)` on strings. -/
def pyReplace (s old new : String) : String :=
  String.mk (pyReplaceAux old.toList new.toList s.toList)

/-- Python slicing `s[:n]`. -/
def pyTake (s : String) (n : Nat) : String := String.mk (s.toList.take n)

/-- Python `sub in s` over character lists. -/
def pyContainsAux (sub : List Char) : List Char → Bool
  | [] => sub.isEmpty
  | c :: t => sub.isPrefixOf (c :: t) || pyContainsAux sub t

/-- Python `sub in s` (substring containment). -/
def pyContains (s sub : String) : Bool :=
  pyContainsAux sub.toList s.toList

/-- `re.search(r'\{.*\}', s, re.DOTALL)`: greedy match from the first `{` to the
last `}`; `None` when no such span exists. -/
def findJsonBlock (s : String) : Option String :=
  let cs := s.toList
  match cs.findIdx? (fun c => c == '{') with
  | Option.none => Option.none
  | some i =>
    match cs.reverse.findIdx? (fun c => c == '}') with
    | Option.none => Option.none
    | some r =>
      let j := cs.length - 1 - r
      if i < j then some (String.mk ((cs.drop i).take (j - i + 1))) else Option.none

/- ### src/tools.py -/

/-- `TRUNCATE_LIMIT = 2000` (src/tools.py). -/
def TRUNCATE_LIMIT : Nat := 2000

/-- Outcome of `subprocess.run([sys.executable, filename], ..., check=True)`:
a clean exit with captured streams, a `CalledProcessError` (non-zero exit under
`check=True`), or any other exception (timeout, missing file, ...). -/
inductive FileExecOutcome where
  | ok (stdout stderr : String)
  | calledProcessError (stderr : String)
  | exc (msg : String)

/-- Outcome of `exec(cleaned_code, allowed_globals)` under `redirect_stdout`:
the captured buffer on success, or the raised exception's text. -/
inductive StrExecOutcome where
  | ok (buffer : String)
  | exc (msg : String)

/-- The external execution collaborators of `run_python_code`. -/
structure PyExec where
  runFile : String → FileExecOutcome
  runStr : String → StrExecOutcome

/-- Python truthiness of an optional-string argument (`if filename:`):
`None` and the empty string are falsy. -/
def optTruthy : Option String → Bool
  | Option.none => false
  | some s => !s.isEmpty

/-- `run_python_code(code_string=None, filename=None)` (src/tools.py, lines 144-224):
file mode when `filename` is truthy, else string mode when `code_string` is truthy,
else an error string; every failure is rendered as text, never re-raised. -/
def run_python_code (px : PyExec) (code_string filename : Option String) : String :=
  if optTruthy filename then
    let fn := filename.getD ""
    match px.runFile fn with
    | FileExecOutcome.ok out err =>
      let output := out ++ err
      if output.isEmpty then
        "File '" ++ fn ++ "' executed successfully with no print output."
      else if output.length > TRUNCATE_LIMIT then
        "File executed. Output (truncated):\n" ++ pyTake output TRUNCATE_LIMIT ++ "\n...[TRUNCATED]"
      else
        "File executed. Output:\n" ++ output
    | FileExecOutcome.calledProcessError err =>
      "Error executing file " ++ fn ++ ": " ++ err
    | FileExecOutcome.exc m =>
      "Error executing file " ++ fn ++ ": " ++ m
  else if optTruthy code_string then
    let cleaned := pyReplace (code_string.getD "") "\\n" "\n"
    match px.runStr cleaned with
    | StrExecOutcome.ok buf =>
      let output := if pyContains cleaned "plt.savefig" then buf ++ "\n[Plot saved to file by code.]" else buf
      if output.isEmpty then
        "Code executed successfully with no print output."
      else if output.length > TRUNCATE_LIMIT then
        "Code executed. Output (truncated):\n" ++ pyTake output TRUNCATE_LIMIT ++ "\n...[TRUNCATED]"
      else
        "Code executed. Output:\n" ++ output
    | StrExecOutcome.exc m =>
      "Error executing code: " ++ m
  else
    "Error: 'run_python_code' called with no 'code_string' or 'filename'."

/-- The POSTed payload of `submit_answer` (src/tools.py, lines 234-239):
the dict literal `{"email": email, "secret": secret, "url": task_url, **answer_payload}`. -/
def final_payload (email secret task_url : String) (answer_payload : List (String × PVal)) :
    List (String × PVal) :=
  dictLit ([("email", PVal.str email), ("secret", PVal.str secret), ("url", PVal.str task_url)]
    ++ answer_payload)

/- ### src/agent.py: the `solve_quiz_task` control loop -/

/-- A conversation role. -/
inductive Role where
  | system
  | user
  | model
deriving DecidableEq

/-- One history entry (`{"role": ..., "content": ...}`). -/
structure Turn where
  role : Role
  content : String
deriving DecidableEq

/-- Stands for the fixed `SYSTEM_PROMPT` text of src/agent.py; its content is
never inspected by the control flow, so it is kept abbreviated here. -/
def SYSTEM_PROMPT : String := "[the fixed system prompt of src/agent.py]"

/-- Why the `for` loop was left early (`break`), when it was. -/
inductive ExitKind where
  | deadline
  | success
  | redirect
  | fatalParse
deriving DecidableEq

/-- A record of one tool invocation performed by the dispatcher, with the
argument values actually passed to the tool. -/
inductive ToolCall where
  | scrape (url : PVal)
  | download (url : PVal)
  | readFile (filename : PVal)
  | writeFile (filename content mode : PVal)
  | runPython (code filename : PVal)
  | submit (submitUrl answerPayload : PVal)

/-- Outcome of one model request (the body of the first `try` up to
`response_text`): `fail` for any transport/HTTP/decode exception raised
before `response_text` is bound, `text` for a delivered reply. -/
inductive LLMOutcome where
  | fail (msg : String)
  | text (t : String)

/-- The external collaborators of one `solve_quiz_task` run, indexed by the
loop variable `step` where they are consulted once per iteration:
`now1` is `time.time()` at the deadline check, `now2` is `time.time()` when a
fresh deadline for a chained task is computed, `llm` is the reasoning backend,
`toolRes` is the observation string returned by the tool invoked at that step,
`jsonLoads` is `json.loads` (an `Except.error` models a raised decode error)
and `urljoin` is `urllib.parse.urljoin`. -/
structure Env where
  initObs : String
  now1 : Nat → Int
  now2 : Nat → Int
  llm : Nat → LLMOutcome
  toolRes : Nat → String
  jsonLoads : String → Except String PVal
  urljoin : String → String → String

/-- The per-run task context (`email`, `secret`, `url`, `deadline`);
`deadline = none` models the Python default `deadline=None`. -/
structure Ctx where
  email : String
  secret : String
  url : String
  deadline : Option Int

/-- The mutable state of one run, plus instrumentation: `iters` counts executed
loop-body entries, `modelCalls` counts entries into the reasoning-request `try`,
`calls` logs dispatched tool invocations, `spawns` logs recursive
`solve_quiz_task` launches as (next url, fresh deadline) pairs, `agentLog` logs
the `(analysis, plan)` pair extracted from each decoded decision, and
`finished` is set when the loop `break`s (it stays `none` over a run that never
naturally terminates). -/
structure LoopState where
  observation : String
  history : List Turn
  iters : Nat
  modelCalls : Nat
  calls : List ToolCall
  spawns : List (PVal × Int)
  agentLog : List (PVal × PVal)
  finished : Option ExitKind

/-- The deadline guard at the top of each iteration
(`if deadline and time.time() > deadline:`): Python float truthiness makes a
zero deadline skip the check entirely. -/
def deadlineHit (env : Env) (ctx : Ctx) (step : Nat) : Bool :=
  match ctx.deadline with
  | some d => (d != 0) && (env.now1 step > d)
  | Option.none => false

/-- `tool_name = action_obj.get("tool") or action_obj.get("type")` (line 160). -/
def resolveToolName (es : List (String × PVal)) : PVal :=
  pyOr ((dget es "tool").getD PVal.none) ((dget es "type").getD PVal.none)

/-- Parameter-mapping extraction (lines 165-172): the first present key among
`parameters`, `args`, `kwargs`, else the whole action object. -/
def resolveArgs (actionObj : PVal) : PVal :=
  match actionObj with
  | PVal.dict es =>
    if es.any (fun p => p.1 == "parameters") then (dget es "parameters").getD (PVal.dict [])
    else if es.any (fun p => p.1 == "args") then (dget es "args").getD (PVal.dict [])
    else if es.any (fun p => p.1 == "kwargs") then (dget es "kwargs").getD (PVal.dict [])
    else actionObj
  | v => v

/-- Relative-URL normalization of one named parameter (lines 175-178 and
181-184): `args.get(key)` (raising on a non-dict), skip when falsy, resolve via
`urljoin` when the string does not start with `http`; a truthy non-string
raises `AttributeError` at `.startswith`. -/
def normalizeParamUrl (env : Env) (ctx : Ctx) (args : PVal) (key : String) : Except String PVal :=
  match pvGetD args key PVal.none with
  | Except.error e => Except.error e
  | Except.ok callUrl =>
    if pvTruthy callUrl then
      match callUrl with
      | PVal.str u =>
        if !pyStartswith u "http" then
          Except.ok (pvSet args key (PVal.str (env.urljoin ctx.url u)))
        else Except.ok args
      | _ => Except.error "AttributeError: object has no attribute startswith"
    else Except.ok args

/-- The URL-normalization step (lines 174-184): `url` for `scrape_website` and
`download_and_read_file`, `submit_url` for `submit_answer`, nothing otherwise. -/
def normalizeUrlArgs (env : Env) (ctx : Ctx) (toolName : PVal) (args : PVal) :
    Except String PVal :=
  if pvIsStr toolName "scrape_website" || pvIsStr toolName "download_and_read_file" then
    normalizeParamUrl env ctx args "url"
  else if pvIsStr toolName "submit_answer" then
    normalizeParamUrl env ctx args "submit_url"
  else Except.ok args

/-- Analysis of a `submit_answer` observation (lines 218-253): split off the
text after `"Submission response:"`, strip it, `json.loads` it, read `correct`
(default `False`) and `url`, and route per the decision table; the first
component is the spawned (next url, fresh deadline) if any, the second the
`break` reason (`none` = `continue` and retry). Any exception in this block
(decode failure, `.get` on a non-dict) is caught and ends the run as fatal. -/
def submitRouting (env : Env) (step : Nat) (obs : String) : Option (PVal × Int) × Option ExitKind :=
  match env.jsonLoads (pyStrip (splitOnceLast obs "Submission response:")) with
  | Except.error _ => (Option.none, some ExitKind.fatalParse)
  | Except.ok (PVal.dict es) =>
    let isCorrect := (dget es "correct").getD (PVal.bool false)
    let newUrl := (dget es "url").getD PVal.none
    if pvTruthy isCorrect then
      if pvTruthy newUrl then (some (newUrl, env.now2 step + 170), some ExitKind.success)
      else (Option.none, some ExitKind.success)
    else
      if pvTruthy newUrl then (some (newUrl, env.now2 step + 170), some ExitKind.redirect)
      else (Option.none, Option.none)
  | Except.ok _ => (Option.none, some ExitKind.fatalParse)

/-- What one dispatch produced: the next observation, the tool invocation
performed (if the dispatcher reached one), the spawned chained task (if any)
and the `break` reason (if any). -/
structure DispatchRes where
  observation : String
  call : Option ToolCall
  spawn : Option (PVal × Int)
  exit : Option ExitKind

/-- The observation for an unknown tool identifier (line 256). -/
def unknownToolObs (toolName : PVal) : String :=
  "Error: Unknown tool '" ++ pvStr toolName ++ "'. Please use one of the available tools."

/-- The action-dispatch `try` body (lines 156-256): shape checks, tool-name and
parameter extraction, URL normalization, then the tool `if`-chain; an
`Except.error` models an exception reaching the handler at line 258. -/
def dispatchCore (env : Env) (ctx : Ctx) (step : Nat) (actionObj : PVal) :
    Except String DispatchRes :=
  match actionObj with
  | PVal.dict es =>
    let toolName := resolveToolName es
    if pvTruthy toolName then
      match normalizeUrlArgs env ctx toolName (resolveArgs (PVal.dict es)) with
      | Except.error e => Except.error e
      | Except.ok args =>
        if pvIsStr toolName "scrape_website" then
          match pvIndex args "url" with
          | Except.error e => Except.error e
          | Except.ok u =>
            Except.ok { observation := env.toolRes step, call := some (ToolCall.scrape u),
                        spawn := Option.none, exit := Option.none }
        else if pvIsStr toolName "download_and_read_file" then
          match pvIndex args "url" with
          | Except.error e => Except.error e
          | Except.ok u =>
            Except.ok { observation := env.toolRes step, call := some (ToolCall.download u),
                        spawn := Option.none, exit := Option.none }
        else if pvIsStr toolName "read_file" then
          match pvIndex args "filename" with
          | Except.error e => Except.error e
          | Except.ok f =>
            Except.ok { observation := env.toolRes step, call := some (ToolCall.readFile f),
                        spawn := Option.none, exit := Option.none }
        else if pvIsStr toolName "write_to_file" then
          match pvGetD args "mode" (PVal.str "w") with
          | Except.error e => Except.error e
          | Except.ok m =>
            match pvIndex args "filename" with
            | Except.error e => Except.error e
            | Except.ok f =>
              match pvIndex args "content" with
              | Except.error e => Except.error e
              | Except.ok c =>
                Except.ok { observation := env.toolRes step,
                            call := some (ToolCall.writeFile f c m),
                            spawn := Option.none, exit := Option.none }
        else if pvIsStr toolName "run_python_code" then
          match pvGetD args "code_string" PVal.none with
          | Except.error e => Except.error e
          | Except.ok cs =>
            match pvGetD args "filename" PVal.none with
            | Except.error e => Except.error e
            | Except.ok fn =>
              Except.ok { observation := env.toolRes step,
                          call := some (ToolCall.runPython cs fn),
                          spawn := Option.none, exit := Option.none }
        else if pvIsStr toolName "submit_answer" then
          match pvIndex args "submit_url" with
          | Except.error e => Except.error e
          | Except.ok su =>
            match pvIndex args "answer_payload" with
            | Except.error e => Except.error e
            | Except.ok ap =>
              let obs := env.toolRes step
              let r := submitRouting env step obs
              Except.ok { observation := obs, call := some (ToolCall.submit su ap),
                          spawn := r.1, exit := r.2 }
        else
          Except.ok { observation := unknownToolObs toolName, call := Option.none,
                      spawn := Option.none, exit := Option.none }
    else Except.error "Action object must contain a 'tool' or 'type' key."
  | v => Except.error ("Action must be a dict, but got " ++ pvType v)

/-- Dispatch with its exception handler (lines 258-260). -/
def dispatchAction (env : Env) (ctx : Ctx) (step : Nat) (actionObj : PVal) : DispatchRes :=
  match dispatchCore env ctx step actionObj with
  | Except.ok r => r
  | Except.error e =>
    { observation := "Error: Failed to execute action. " ++ e, call := Option.none,
      spawn := Option.none, exit := Option.none }

/-- The corrective observation after a failed model turn (line 153). -/
def corrective (msg : String) : String :=
  "Error: Your last response was not valid or API call failed. Please try again. Error: " ++ msg

/-- `analysis = llm_response.get("analysis", "No analysis provided.")` (line 139). -/
def getAnalysis (es : List (String × PVal)) : PVal :=
  (dget es "analysis").getD (PVal.str "No analysis provided.")

/-- `plan = llm_response.get("plan", "No plan provided.")` (line 140). -/
def getPlan (es : List (String × PVal)) : PVal :=
  (dget es "plan").getD (PVal.str "No plan provided.")

/-- Result of the model-request-and-parse `try` (lines 110-154): `failure`
when any exception lands in the handler (transport error, no `{...}` span,
decode failure, or `.get` on a non-dict decode result), `decision` when a JSON
object was extracted and decoded to a dict. -/
inductive LLMPhase where
  | failure (msg : String)
  | decision (jsonStr : String) (es : List (String × PVal))

/-- The model-request-and-parse phase of one iteration. -/
def llmPhase (env : Env) (step : Nat) : LLMPhase :=
  match env.llm step with
  | LLMOutcome.fail e => LLMPhase.failure e
  | LLMOutcome.text t =>
    match findJsonBlock t with
    | Option.none => LLMPhase.failure "LLM did not return valid JSON."
    | some js =>
      match env.jsonLoads js with
      | Except.error e => LLMPhase.failure e
      | Except.ok (PVal.dict es) => LLMPhase.decision js es
      | Except.ok _ => LLMPhase.failure "AttributeError: object has no attribute get"

/-- The observation-bearing user turn appended at the top of each iteration (line 108). -/
def userTurn (observation : String) : Turn :=
  { role := Role.user, content := "Observation:\n" ++ observation ++ "\n\nProvide your JSON response:" }

/-- One iteration of `for step in range(1, max_steps)` (lines 99-260).
A state whose `finished` is set models a loop already left by `break`: further
iterations do not exist, so the state is returned unchanged. -/
def stepBody (env : Env) (ctx : Ctx) (st : LoopState) (step : Nat) : LoopState :=
  if st.finished.isSome then st
  else if deadlineHit env ctx step then
    { st with finished := some ExitKind.deadline }
  else
    let st1 : LoopState :=
      { st with
        iters := st.iters + 1,
        history := st.history ++ [userTurn st.observation],
        modelCalls := st.modelCalls + 1 }
    match llmPhase env step with
    | LLMPhase.failure e => { st1 with observation := corrective e }
    | LLMPhase.decision js es =>
      let st2 : LoopState :=
        { st1 with
          history := st1.history ++ [{ role := Role.model, content := js }],
          agentLog := st1.agentLog ++ [(getAnalysis es, getPlan es)] }
      let r := dispatchAction env ctx step ((dget es "action").getD PVal.none)
      { st2 with
        observation := r.observation,
        calls := st2.calls ++ r.call.toList,
        spawns := st2.spawns ++ r.spawn.toList,
        finished := r.exit }

/-- `max_steps = 15` (line 89). -/
def max_steps : Nat := 15

/-- The loop's iteration sequence, `range(1, max_steps)`. -/
def stepRange : List Nat := List.range' 1 (max_steps - 1)

/-- The state entering the loop: system-prompt history and the initial
"scrape first" observation (lines 85-96; the tool never raises, and a failure
is already an error string, so `env.initObs` covers both arms of that `try`). -/
def initState (env : Env) : LoopState :=
  { observation := env.initObs,
    history := [{ role := Role.system, content := SYSTEM_PROMPT }],
    iters := 0, modelCalls := 0, calls := [], spawns := [], agentLog := [],
    finished := Option.none }

/-- One full `solve_quiz_task` run (src/agent.py, lines 76-262): the loop as a
fold of `stepBody` over `range(1, max_steps)`. -/
def runLoop (env : Env) (ctx : Ctx) : LoopState :=
  stepRange.foldl (stepBody env ctx) (initState env)

/- ### General lemmas about the loop -/

/-- A state left by `break` is a fixed point of the iteration body: the loop
performs no further work after a `break`. -/
theorem stepBody_finished (env : Env) (ctx : Ctx) (st : LoopState) (step : Nat)
    (h : st.finished.isSome) : stepBody env ctx st step = st := by
  simp [stepBody, h]

/-- The whole remaining iteration sequence is a no-op after a `break`. -/
theorem foldl_finished (env : Env) (ctx : Ctx) (st : LoopState) (ks : List Nat)
    (h : st.finished.isSome) : ks.foldl (stepBody env ctx) st = st := by
  induction ks with
  | nil => rfl
  | cons k t ih =>
    simp only [List.foldl_cons, stepBody_finished env ctx st k h]
    exact ih

/-- An iteration that leaves `finished` unset was entered with it unset and
advanced both the iteration counter and the model-call counter by one. -/
theorem stepBody_unfinished (env : Env) (ctx : Ctx) (st : LoopState) (step : Nat)
    (h : (stepBody env ctx st step).finished = Option.none) :
    st.finished = Option.none ∧
    (stepBody env ctx st step).iters = st.iters + 1 ∧
    (stepBody env ctx st step).modelCalls = st.modelCalls + 1 := by
  by_cases hf : st.finished.isSome
  · rw [stepBody_finished env ctx st step hf] at h
    rw [h] at hf
    simp at hf
  · have hf' : st.finished = Option.none := by
      cases hfin : st.finished with
      | none => rfl
      | some e => rw [hfin] at hf; simp at hf
    by_cases hd : deadlineHit env ctx step
    · exfalso
      simp [stepBody, hf', hd] at h
    · refine ⟨hf', ?_, ?_⟩ <;>
        cases hphase : llmPhase env step <;>
          simp [stepBody, hf', hd, hphase]

/-- Over any iteration suffix that ends with `finished` unset, every iteration
ran its body: the counters advance by exactly the number of iterations. -/
theorem foldl_unfinished (env : Env) (ctx : Ctx) (ks : List Nat) (st : LoopState)
    (h : (ks.foldl (stepBody env ctx) st).finished = Option.none) :
    st.finished = Option.none ∧
    (ks.foldl (stepBody env ctx) st).iters = st.iters + ks.length ∧
    (ks.foldl (stepBody env ctx) st).modelCalls = st.modelCalls + ks.length := by
  induction ks generalizing st with
  | nil =>
    simp only [List.foldl_nil] at h
    exact ⟨h, by simp, by simp⟩
  | cons k t ih =>
    simp only [List.foldl_cons] at h ⊢
    obtain ⟨h1, h2, h3⟩ := ih (stepBody env ctx st k) h
    obtain ⟨h4, h5, h6⟩ := stepBody_unfinished env ctx st k h1
    refine ⟨h4, ?_, ?_⟩ <;> simp [h2, h3, h5, h6] <;> omega

/- ### Lemmas about the dict model (for the submission payload) -/

/-- Unfolding lookup over a cons cell. -/
theorem dget_cons (p : String × PVal) (t : List (String × PVal)) (q : String) :
    dget (p :: t) q = if p.1 = q then some p.2 else dget t q := by
  by_cases h : p.1 = q <;> simp [dget, List.find?_cons, h]

/-- Lookup in the empty dict. -/
theorem dget_nil (q : String) : dget [] q = Option.none := rfl

/-- Lookup after a dict update: the updated key reads the new value, every
other key is untouched. -/
theorem dget_dictInsert (d : List (String × PVal)) (k : String) (v : PVal) (q : String) :
    dget (dictInsert d k v) q = if q = k then some v else dget d q := by
  induction d with
  | nil =>
    show dget [(k, v)] q = _
    rw [dget_cons, dget_nil]
    by_cases h : q = k
    · simp [h]
    · simp [h, Ne.symm h]
  | cons p t ih =>
    show dget (if p.1 == k then (k, v) :: t else p :: dictInsert t k v) q = _
    by_cases hpk : p.1 = k
    · rw [if_pos (by simp [hpk]), dget_cons, dget_cons]
      by_cases hq : q = k
      · simp [hq]
      · simp only [hq, Ne.symm hq, if_false, if_neg]
        rw [if_neg (fun he : p.1 = q => hq (he.symm.trans hpk))]
    · rw [if_neg (by simp [hpk]), dget_cons, dget_cons, ih]
      by_cases hq : q = k
      · subst hq
        simp [fun he : p.1 = q => hpk he]
      · simp [hq]

/-- `lastVal` over an appended item. -/
theorem lastVal_append_single (items : List (String × PVal)) (p : String × PVal) (k : String) :
    lastVal (items ++ [p]) k = if p.1 = k then some p.2 else lastVal items k := by
  by_cases h : p.1 = k <;>
    simp [lastVal, List.find?_cons, h]

/-- A dict literal realizes "latest item wins": looking a key up in the built
dict is reading the latest item that carries it. -/
theorem dget_dictLit (items : List (String × PVal)) (k : String) :
    dget (dictLit items) k = lastVal items k := by
  induction items using List.reverseRecOn with
  | nil => rfl
  | append_singleton t p ih =>
    have hstep : dictLit (t ++ [p]) = dictInsert (dictLit t) p.1 p.2 := by
      simp [dictLit, List.foldl_append]
    rw [hstep, dget_dictInsert, lastVal_append_single, ih]
    by_cases h : k = p.1
    · simp [h]
    · simp [h, Ne.symm h]

/-- `lastVal` over an append: the later block wins when it carries the key. -/
theorem lastVal_append (xs ys : List (String × PVal)) (k : String) :
    lastVal (xs ++ ys) k =
      match lastVal ys k with
      | some v => some v
      | Option.none => lastVal xs k := by
  simp only [lastVal, List.reverse_append, List.find?_append]
  cases hy : List.find? (fun p => p.1 == k) ys.reverse <;>
    simp [hy, Option.orElse]

/-- C9: the POSTed submission payload is the caller identity overridden by the
model's `answer_payload`: each of `email`, `secret`, `url` reads the
`answer_payload` value when that key occurs there, the caller's value
otherwise, and every other key reads straight from `answer_payload`. -/
theorem submit_payload_merge (e s u : String) (ap : List (String × PVal)) :
    dget (final_payload e s u ap) "email" = some ((lastVal ap "email").getD (PVal.str e)) ∧
    dget (final_payload e s u ap) "secret" = some ((lastVal ap "secret").getD (PVal.str s)) ∧
    dget (final_payload e s u ap) "url" = some ((lastVal ap "url").getD (PVal.str u)) ∧
    ∀ k : String, k ≠ "email" → k ≠ "secret" → k ≠ "url" →
      dget (final_payload e s u ap) k = lastVal ap k := by
  have hbase : ∀ k : String,
      dget (final_payload e s u ap) k =
        match lastVal ap k with
        | some v => some v
        | Option.none =>
          lastVal [("email", PVal.str e), ("secret", PVal.str s), ("url", PVal.str u)] k := by
    intro k
    rw [final_payload, dget_dictLit, lastVal_append]
  refine ⟨?_, ?_, ?_, ?_⟩
  · rw [hbase "email"]
    cases hv : lastVal ap "email" <;> simp [hv, lastVal, List.find?]
  · rw [hbase "secret"]
    cases hv : lastVal ap "secret" <;> simp [hv, lastVal, List.find?]
  · rw [hbase "url"]
    cases hv : lastVal ap "url" <;> simp [hv, lastVal, List.find?]
  · intro k h1 h2 h3
    rw [hbase k]
    have e1 : ("email" == k) = false := beq_eq_false_iff_ne.mpr (Ne.symm h1)
    have e2 : ("secret" == k) = false := beq_eq_false_iff_ne.mpr (Ne.symm h2)
    have e3 : ("url" == k) = false := beq_eq_false_iff_ne.mpr (Ne.symm h3)
    cases hv : lastVal ap k <;>
      simp [hv, lastVal, List.find?, e1, e2, e3]

/-- Witness for `submit_payload_merge` at a concrete payload that overrides
`email` and adds an `answer` key. -/
theorem submit_payload_merge_witness :
    dget (final_payload "a@b.c" "sec" "https://host/q" [("email", PVal.str "x@y.z"), ("answer", PVal.num 42)]) "email"
        = some ((lastVal [("email", PVal.str "x@y.z"), ("answer", PVal.num 42)] "email").getD (PVal.str "a@b.c")) ∧
    dget (final_payload "a@b.c" "sec" "https://host/q" [("email", PVal.str "x@y.z"), ("answer", PVal.num 42)]) "answer"
        = lastVal [("email", PVal.str "x@y.z"), ("answer", PVal.num 42)] "answer" :=
  ⟨(submit_payload_merge "a@b.c" "sec" "https://host/q" [("email", PVal.str "x@y.z"), ("answer", PVal.num 42)]).1,
   (submit_payload_merge "a@b.c" "sec" "https://host/q" [("email", PVal.str "x@y.z"), ("answer", PVal.num 42)]).2.2.2
     "answer" (by decide) (by decide) (by decide)⟩

/-- C8: `run_python_code` mode selection and failure rendering: a call with
neither a truthy `code_string` nor a truthy `filename` returns the fixed error
string (it does not raise), and an execution failure in either mode — a
non-zero exit or any other exception in file mode, an exception in string
mode — comes back as a textual error observation, never as a propagated
exception. -/
theorem run_python_code_mode_errors :
    (∀ (px : PyExec) (cs fn : Option String),
      optTruthy cs = false → optTruthy fn = false →
      run_python_code px cs fn =
        "Error: 'run_python_code' called with no 'code_string' or 'filename'.") ∧
    (∀ (px : PyExec) (cs fn : Option String) (e : String),
      optTruthy fn = true → px.runFile (fn.getD "") = FileExecOutcome.calledProcessError e →
      run_python_code px cs fn = "Error executing file " ++ fn.getD "" ++ ": " ++ e) ∧
    (∀ (px : PyExec) (cs fn : Option String) (m : String),
      optTruthy fn = true → px.runFile (fn.getD "") = FileExecOutcome.exc m →
      run_python_code px cs fn = "Error executing file " ++ fn.getD "" ++ ": " ++ m) ∧
    (∀ (px : PyExec) (cs fn : Option String) (m : String),
      optTruthy fn = false → optTruthy cs = true →
      px.runStr (pyReplace (cs.getD "") "\\n" "\n") = StrExecOutcome.exc m →
      run_python_code px cs fn = "Error executing code: " ++ m) := by
  refine ⟨?_, ?_, ?_, ?_⟩
  · intro px cs fn h1 h2
    simp [run_python_code, h1, h2]
  · intro px cs fn e h1 h2
    simp [run_python_code, h1, h2]
  · intro px cs fn m h1 h2
    simp [run_python_code, h1, h2]
  · intro px cs fn m h1 h2 h3
    simp [run_python_code, h1, h2, h3]

/-- A concrete executor whose file mode exits non-zero and whose string mode
raises, for exercising `run_python_code`'s error paths. -/
def failingPyExec : PyExec :=
  { runFile := fun _ => FileExecOutcome.calledProcessError "Traceback: boom",
    runStr := fun _ => StrExecOutcome.exc "NameError: name 'os' is not defined" }

/-- Witness for `run_python_code_mode_errors`: the no-mode call, a failing file
run and a failing string run, each at concrete inputs. -/
theorem run_python_code_mode_errors_witness :
    run_python_code failingPyExec Option.none Option.none =
      "Error: 'run_python_code' called with no 'code_string' or 'filename'." ∧
    run_python_code failingPyExec Option.none (some "script.py") =
      "Error executing file " ++ "script.py" ++ ": " ++ "Traceback: boom" ∧
    run_python_code failingPyExec (some "print(1)") Option.none =
      "Error executing code: " ++ "NameError: name 'os' is not defined" :=
  ⟨run_python_code_mode_errors.1 failingPyExec Option.none Option.none rfl rfl,
   run_python_code_mode_errors.2.1 failingPyExec Option.none (some "script.py")
     "Traceback: boom" rfl rfl,
   run_python_code_mode_errors.2.2.2 failingPyExec (some "print(1)") Option.none
     "NameError: name 'os' is not defined" rfl rfl rfl⟩

/-- C10: a submission response that decodes to a JSON object with no `correct`
key is not a fatal parse failure: `correct` defaults to `False` and the
incorrect-answer routing applies (redirect when a `url` is present, otherwise
keep the run alive and retry). -/
theorem submit_missing_correct_defaults (env : Env) (k : Nat) (obs : String)
    (es : List (String × PVal))
    (hparse : env.jsonLoads (pyStrip (splitOnceLast obs "Submission response:")) =
      Except.ok (PVal.dict es))
    (hmiss : dget es "correct" = Option.none) :
    pvTruthy ((dget es "correct").getD (PVal.bool false)) = false ∧
    (submitRouting env k obs).2 ≠ some ExitKind.fatalParse ∧
    submitRouting env k obs =
      (if pvTruthy ((dget es "url").getD PVal.none) then
        (some ((dget es "url").getD PVal.none, env.now2 k + 170), some ExitKind.redirect)
      else (Option.none, Option.none)) := by
  have h1 : pvTruthy ((dget es "correct").getD (PVal.bool false)) = false := by
    rw [hmiss]
    rfl
  have h2 : submitRouting env k obs =
      (if pvTruthy ((dget es "url").getD PVal.none) then
        (some ((dget es "url").getD PVal.none, env.now2 k + 170), some ExitKind.redirect)
      else (Option.none, Option.none)) := by
    simp only [submitRouting, hparse, h1]
    simp
  refine ⟨h1, ?_, h2⟩
  rw [h2]
  by_cases hu : pvTruthy ((dget es "url").getD PVal.none) <;> simp [hu]

/-- Witness for `submit_missing_correct_defaults`: a response body decoding to
an object holding only a `reason`. -/
def missingCorrectEnv : Env :=
  { initObs := "page", now1 := fun _ => 0, now2 := fun _ => 100,
    llm := fun _ => LLMOutcome.fail "unused",
    toolRes := fun _ => "Submission response: \x7b\"reason\": \"wrong\"\x7d",
    jsonLoads := fun s =>
      if s == "\x7b\"reason\": \"wrong\"\x7d" then
        Except.ok (PVal.dict [("reason", PVal.str "wrong")])
      else Except.error "Expecting value: line 1 column 1 (char 0)",
    urljoin := fun _ r => r }

/-- Witness for `submit_missing_correct_defaults` at the concrete environment. -/
theorem submit_missing_correct_defaults_witness :
    pvTruthy ((dget [("reason", PVal.str "wrong")] "correct").getD (PVal.bool false)) = false ∧
    (submitRouting missingCorrectEnv 3 "Submission response: \x7b\"reason\": \"wrong\"\x7d").2 ≠
      some ExitKind.fatalParse ∧
    submitRouting missingCorrectEnv 3 "Submission response: \x7b\"reason\": \"wrong\"\x7d" =
      (if pvTruthy ((dget [("reason", PVal.str "wrong")] "url").getD PVal.none) then
        (some ((dget [("reason", PVal.str "wrong")] "url").getD PVal.none,
          missingCorrectEnv.now2 3 + 170), some ExitKind.redirect)
      else (Option.none, Option.none)) :=
  submit_missing_correct_defaults missingCorrectEnv 3
    "Submission response: \x7b\"reason\": \"wrong\"\x7d" [("reason", PVal.str "wrong")]
    rfl rfl

/-- An environment whose model backend always fails transport: the run never
naturally terminates (nothing ever `break`s when no deadline is set). -/
def stallEnv : Env :=
  { initObs := "initial page markup", now1 := fun _ => 0, now2 := fun _ => 0,
    llm := fun _ => LLMOutcome.fail "connection reset",
    toolRes := fun _ => "", jsonLoads := fun _ => Except.error "Expecting value",
    urljoin := fun _ r => r }

/-- A task context with no deadline (`deadline=None`). -/
def noDeadlineCtx : Ctx :=
  { email := "a@b.c", secret := "s3cret", url := "https://host/q1", deadline := Option.none }

/-- C1 counterexample: a run that never naturally terminates (its `finished`
flag stays unset through the whole of `range(1, max_steps)`) performs 14 loop
iterations, not 15: `for step in range(1, 15)` has 14 elements, the 15-step
budget counting the implicit initial scrape as step 1. -/
theorem step_budget_not_fifteen_cex :
    (runLoop stallEnv noDeadlineCtx).finished = Option.none ∧
    (runLoop stallEnv noDeadlineCtx).iters = 14 ∧
    (runLoop stallEnv noDeadlineCtx).iters ≠ 15 := by
  refine ⟨rfl, rfl, by decide⟩

/-- C1 (amended): every run of the loop that never naturally terminates — no
`break` for submission success, redirect, fatal parse failure or deadline —
executes the loop body exactly 14 times and issues exactly 14 reasoning-backend
requests; with the implicit initial scrape counted as step 1, the run spans the
logged 15 steps. -/
theorem step_budget_fourteen_iterations (env : Env) (ctx : Ctx)
    (h : (runLoop env ctx).finished = Option.none) :
    (runLoop env ctx).iters = 14 ∧ (runLoop env ctx).modelCalls = 14 := by
  have hlen : stepRange.length = 14 := by decide
  have := foldl_unfinished env ctx stepRange (initState env) h
  rw [runLoop]
  refine ⟨?_, ?_⟩
  · rw [this.2.1, hlen]
    rfl
  · rw [this.2.2, hlen]
    rfl

/-- Witness for `step_budget_fourteen_iterations` at the concrete stalled run. -/
theorem step_budget_fourteen_iterations_witness :
    (runLoop stallEnv noDeadlineCtx).iters = 14 ∧
    (runLoop stallEnv noDeadlineCtx).modelCalls = 14 :=
  step_budget_fourteen_iterations stallEnv noDeadlineCtx rfl

/-- C2 (amended): with a nonzero deadline set, an iteration boundary at which
the current time exceeds the deadline terminates the run at once: the state is
unchanged except for the `deadline` exit mark — no observation turn is
appended, no reasoning-backend request is issued — and every later iteration is
a no-op, so no further backend call occurs for the run. -/
theorem deadline_guard_stops_run (env : Env) (ctx : Ctx) (st : LoopState) (k : Nat) (d : Int)
    (hd : ctx.deadline = some d) (hnz : d ≠ 0)
    (hf : st.finished = Option.none) (ht : env.now1 k > d) :
    stepBody env ctx st k = { st with finished := some ExitKind.deadline } ∧
    (stepBody env ctx st k).history = st.history ∧
    (stepBody env ctx st k).modelCalls = st.modelCalls ∧
    ∀ ks : List Nat,
      (ks.foldl (stepBody env ctx) (stepBody env ctx st k)).modelCalls = st.modelCalls := by
  have hhit : deadlineHit env ctx k = true := by
    simp [deadlineHit, hd, hnz, ht]
  have hstep : stepBody env ctx st k = { st with finished := some ExitKind.deadline } := by
    simp [stepBody, hf, hhit]
  refine ⟨hstep, by rw [hstep], by rw [hstep], ?_⟩
  intro ks
  rw [hstep, foldl_finished env ctx _ ks (by simp)]

/-- Fixed-time environment whose clock always reads 50, past small deadlines. -/
def lateClockEnv : Env :=
  { initObs := "initial page markup", now1 := fun _ => 50, now2 := fun _ => 50,
    llm := fun _ => LLMOutcome.fail "connection reset",
    toolRes := fun _ => "", jsonLoads := fun _ => Except.error "Expecting value",
    urljoin := fun _ r => r }

/-- A context whose deadline is the (falsy) zero timestamp. -/
def zeroDeadlineCtx : Ctx :=
  { email := "a@b.c", secret := "s3cret", url := "https://host/q1", deadline := some 0 }

/-- A context with deadline 10, exceeded by `lateClockEnv`'s clock. -/
def smallDeadlineCtx : Ctx :=
  { email := "a@b.c", secret := "s3cret", url := "https://host/q1", deadline := some 10 }

/-- C2 counterexample: with the deadline set to the Python-falsy timestamp
`0.0` and the clock past it (50 > 0 at the very first boundary), the guard
`if deadline and time.time() > deadline:` is skipped and the run still issues
reasoning-backend requests — 14 of them — contradicting the claim as stated
for every run "with a deadline set". -/
theorem deadline_zero_guard_skipped_cex :
    zeroDeadlineCtx.deadline = some 0 ∧
    lateClockEnv.now1 1 > 0 ∧
    (runLoop lateClockEnv zeroDeadlineCtx).modelCalls = 14 := by
  refine ⟨rfl, by decide, rfl⟩

/-- Witness for `deadline_guard_stops_run` at a concrete exceeded deadline,
with the trailing no-further-calls conjunct instantiated at the remaining
iteration suffix `[2, 3, 4]`. -/
theorem deadline_guard_stops_run_witness :
    stepBody lateClockEnv smallDeadlineCtx (initState lateClockEnv) 1 =
      { initState lateClockEnv with finished := some ExitKind.deadline } ∧
    (stepBody lateClockEnv smallDeadlineCtx (initState lateClockEnv) 1).history =
      (initState lateClockEnv).history ∧
    (stepBody lateClockEnv smallDeadlineCtx (initState lateClockEnv) 1).modelCalls =
      (initState lateClockEnv).modelCalls ∧
    ([2, 3, 4].foldl (stepBody lateClockEnv smallDeadlineCtx)
        (stepBody lateClockEnv smallDeadlineCtx (initState lateClockEnv) 1)).modelCalls =
      (initState lateClockEnv).modelCalls :=
  ⟨(deadline_guard_stops_run lateClockEnv smallDeadlineCtx (initState lateClockEnv) 1 10
      rfl (by decide) rfl (by decide)).1,
   (deadline_guard_stops_run lateClockEnv smallDeadlineCtx (initState lateClockEnv) 1 10
      rfl (by decide) rfl (by decide)).2.1,
   (deadline_guard_stops_run lateClockEnv smallDeadlineCtx (initState lateClockEnv) 1 10
      rfl (by decide) rfl (by decide)).2.2.1,
   (deadline_guard_stops_run lateClockEnv smallDeadlineCtx (initState lateClockEnv) 1 10
      rfl (by decide) rfl (by decide)).2.2.2 [2, 3, 4]⟩

/-- A non-empty string is Python-truthy. -/
theorem pvTruthy_str_of_ne (u : String) (h : u ≠ "") : pvTruthy (PVal.str u) = true := by
  cases he : u.isEmpty
  · simp [pvTruthy, he]
  · exact absurd ((String.isEmpty_iff u).mp he) h

/-- C7 (amended): for a `scrape_website` or `download_and_read_file` action
whose `url` parameter is a non-empty string not starting with `http`, and a
`submit_answer` action whose `submit_url` parameter is such a string, the
normalization step replaces the parameter by `urljoin(task_url, value)`,
and the dispatcher invokes the tool with the replaced value. -/
theorem relative_url_normalization (env : Env) (ctx : Ctx) :
    (∀ (args : PVal) (u : String),
      pvGetD args "url" PVal.none = Except.ok (PVal.str u) → u ≠ "" →
      pyStartswith u "http" = false →
      normalizeUrlArgs env ctx (PVal.str "scrape_website") args =
        Except.ok (pvSet args "url" (PVal.str (env.urljoin ctx.url u)))) ∧
    (∀ (args : PVal) (u : String),
      pvGetD args "url" PVal.none = Except.ok (PVal.str u) → u ≠ "" →
      pyStartswith u "http" = false →
      normalizeUrlArgs env ctx (PVal.str "download_and_read_file") args =
        Except.ok (pvSet args "url" (PVal.str (env.urljoin ctx.url u)))) ∧
    (∀ (args : PVal) (u : String),
      pvGetD args "submit_url" PVal.none = Except.ok (PVal.str u) → u ≠ "" →
      pyStartswith u "http" = false →
      normalizeUrlArgs env ctx (PVal.str "submit_answer") args =
        Except.ok (pvSet args "submit_url" (PVal.str (env.urljoin ctx.url u)))) ∧
    (∀ (aes : List (String × PVal)) (u : String) (k : Nat),
      dget aes "url" = some (PVal.str u) → u ≠ "" →
      pyStartswith u "http" = false →
      dispatchAction env ctx k
          (PVal.dict [("tool", PVal.str "scrape_website"), ("parameters", PVal.dict aes)]) =
        { observation := env.toolRes k,
          call := some (ToolCall.scrape (PVal.str (env.urljoin ctx.url u))),
          spawn := Option.none, exit := Option.none }) := by
  have hnorm : ∀ (args : PVal) (u : String) (key : String),
      pvGetD args key PVal.none = Except.ok (PVal.str u) → u ≠ "" →
      pyStartswith u "http" = false →
      normalizeParamUrl env ctx args key =
        Except.ok (pvSet args key (PVal.str (env.urljoin ctx.url u))) := by
    intro args u key hget hne hpre
    simp [normalizeParamUrl, hget, pvTruthy_str_of_ne u hne, hpre]
  refine ⟨?_, ?_, ?_, ?_⟩
  · intro args u hget hne hpre
    simpa [normalizeUrlArgs, pvIsStr] using hnorm args u "url" hget hne hpre
  · intro args u hget hne hpre
    simpa [normalizeUrlArgs, pvIsStr] using hnorm args u "url" hget hne hpre
  · intro args u hget hne hpre
    simpa [normalizeUrlArgs, pvIsStr] using hnorm args u "submit_url" hget hne hpre
  · intro aes u k hget hne hpre
    have hargs : resolveArgs
        (PVal.dict [("tool", PVal.str "scrape_website"), ("parameters", PVal.dict aes)]) =
        PVal.dict aes := by
      simp [resolveArgs, dget, List.find?]
    have htool : resolveToolName
        [("tool", PVal.str "scrape_website"), ("parameters", PVal.dict aes)] =
        PVal.str "scrape_website" := by
      simp +decide [resolveToolName, dget, List.find?, pyOr, pvTruthy]
    have hget' : pvGetD (PVal.dict aes) "url" PVal.none = Except.ok (PVal.str u) := by
      simp [pvGetD, hget]
    have hn := hnorm (PVal.dict aes) u "url" hget' hne hpre
    have hidx : pvIndex (pvSet (PVal.dict aes) "url" (PVal.str (env.urljoin ctx.url u))) "url" =
        Except.ok (PVal.str (env.urljoin ctx.url u)) := by
      simp [pvSet, pvIndex, dget_dictInsert]
    simp +decide [dispatchAction, dispatchCore, htool, hargs, normalizeUrlArgs, pvIsStr,
      hn, hidx, pvTruthy]

/-- An environment whose `urljoin` behaves as `urllib.parse.urljoin` does on
the inputs exercised here: joining the empty string yields the base, joining
`/page2` against `https://host/a/` yields `https://host/page2`. -/
def urlJoinEnv : Env :=
  { initObs := "page", now1 := fun _ => 0, now2 := fun _ => 0,
    llm := fun _ => LLMOutcome.fail "unused",
    toolRes := fun _ => "Full HTML content",
    jsonLoads := fun _ => Except.error "Expecting value",
    urljoin := fun b r => if r == "" then b else if r == "/page2" then "https://host/page2" else r }

/-- The task context whose base url is `https://host/a/`. -/
def urlBaseCtx : Ctx :=
  { email := "a@b.c", secret := "s3cret", url := "https://host/a/", deadline := Option.none }

/-- C7 counterexample: an empty-string `url` parameter does not start with
`http`, yet the guard `if call_url and not call_url.startswith('http')` skips
it as falsy: the tool is invoked with the raw empty string, while
`urljoin("https://host/a/", "")` is `"https://host/a/"` — so the parameter is
not replaced by its relative resolution, contradicting the claim as stated. -/
theorem relative_url_empty_not_resolved_cex :
    dispatchAction urlJoinEnv urlBaseCtx 1
        (PVal.dict [("tool", PVal.str "scrape_website"),
          ("parameters", PVal.dict [("url", PVal.str "")])]) =
      { observation := urlJoinEnv.toolRes 1, call := some (ToolCall.scrape (PVal.str "")),
        spawn := Option.none, exit := Option.none } ∧
    urlJoinEnv.urljoin urlBaseCtx.url "" = "https://host/a/" ∧
    ("" : String) ≠ urlJoinEnv.urljoin urlBaseCtx.url "" := by
  refine ⟨rfl, rfl, by decide⟩

/-- Witness for `relative_url_normalization`: the relative parameter `/page2`
against base `https://host/a/`, in both the normalization conjunct and the full
dispatch conjunct. -/
theorem relative_url_normalization_witness :
    normalizeUrlArgs urlJoinEnv urlBaseCtx (PVal.str "scrape_website")
        (PVal.dict [("url", PVal.str "/page2")]) =
      Except.ok (pvSet (PVal.dict [("url", PVal.str "/page2")]) "url"
        (PVal.str (urlJoinEnv.urljoin urlBaseCtx.url "/page2"))) ∧
    dispatchAction urlJoinEnv urlBaseCtx 1
        (PVal.dict [("tool", PVal.str "scrape_website"),
          ("parameters", PVal.dict [("url", PVal.str "/page2")])]) =
      { observation := urlJoinEnv.toolRes 1,
        call := some (ToolCall.scrape (PVal.str (urlJoinEnv.urljoin urlBaseCtx.url "/page2"))),
        spawn := Option.none, exit := Option.none } :=
  ⟨(relative_url_normalization urlJoinEnv urlBaseCtx).1
      (PVal.dict [("url", PVal.str "/page2")]) "/page2" rfl (by decide) rfl,
   (relative_url_normalization urlJoinEnv urlBaseCtx).2.2.2
      [("url", PVal.str "/page2")] "/page2" 1 rfl (by decide) rfl⟩

/-- C5: an action whose resolved tool identifier is a (non-empty) string naming
none of the six tools yields the observation that names the unknown tool, adds
exactly one user/model turn pair to the history for that iteration, and leaves
the loop running. -/
theorem unknown_tool_observation (env : Env) (ctx : Ctx) (st : LoopState) (k : Nat)
    (js : String) (es aes : List (String × PVal)) (tn : String)
    (hf : st.finished = Option.none)
    (hd : deadlineHit env ctx k = false)
    (hllm : llmPhase env k = LLMPhase.decision js es)
    (hact : (dget es "action").getD PVal.none = PVal.dict aes)
    (htool : resolveToolName aes = PVal.str tn)
    (hne : tn ≠ "")
    (h1 : tn ≠ "scrape_website") (h2 : tn ≠ "download_and_read_file")
    (h3 : tn ≠ "read_file") (h4 : tn ≠ "write_to_file")
    (h5 : tn ≠ "run_python_code") (h6 : tn ≠ "submit_answer") :
    (stepBody env ctx st k).observation =
      "Error: Unknown tool '" ++ tn ++ "'. Please use one of the available tools." ∧
    (stepBody env ctx st k).history =
      st.history ++ [userTurn st.observation, { role := Role.model, content := js }] ∧
    (stepBody env ctx st k).finished = Option.none := by
  have ht : pvTruthy (PVal.str tn) = true := pvTruthy_str_of_ne tn hne
  have e1 : (tn == "scrape_website") = false := beq_eq_false_iff_ne.mpr h1
  have e2 : (tn == "download_and_read_file") = false := beq_eq_false_iff_ne.mpr h2
  have e3 : (tn == "read_file") = false := beq_eq_false_iff_ne.mpr h3
  have e4 : (tn == "write_to_file") = false := beq_eq_false_iff_ne.mpr h4
  have e5 : (tn == "run_python_code") = false := beq_eq_false_iff_ne.mpr h5
  have e6 : (tn == "submit_answer") = false := beq_eq_false_iff_ne.mpr h6
  have hdisp : dispatchAction env ctx k (PVal.dict aes) =
      { observation := unknownToolObs (PVal.str tn), call := Option.none,
        spawn := Option.none, exit := Option.none } := by
    simp [dispatchAction, dispatchCore, htool, ht, normalizeUrlArgs, pvIsStr,
      e1, e2, e3, e4, e5, e6]
  refine ⟨?_, ?_, ?_⟩ <;>
    simp [stepBody, hf, hd, hllm, hact, hdisp, unknownToolObs, pvStr]

/-- A model reply choosing the unknown tool `fetch_data`. -/
def unknownToolText : String :=
  "\x7b\"analysis\": \"a\", \"plan\": \"p\", \"action\": \x7b\"tool\": \"fetch_data\", \"parameters\": \x7b\x7d\x7d\x7d"

/-- The decoded object of `unknownToolText`. -/
def unknownToolDecoded : List (String × PVal) :=
  [("analysis", PVal.str "a"), ("plan", PVal.str "p"),
   ("action", PVal.dict [("tool", PVal.str "fetch_data"), ("parameters", PVal.dict [])])]

/-- Environment whose model always answers with the `fetch_data` decision. -/
def unknownToolEnv : Env :=
  { initObs := "page", now1 := fun _ => 0, now2 := fun _ => 0,
    llm := fun _ => LLMOutcome.text unknownToolText,
    toolRes := fun _ => "unused",
    jsonLoads := fun s =>
      if s == unknownToolText then Except.ok (PVal.dict unknownToolDecoded)
      else Except.error "Expecting value",
    urljoin := fun _ r => r }

/-- Witness for `unknown_tool_observation`: the `fetch_data` decision at the
first iteration of a fresh run. -/
theorem unknown_tool_observation_witness :
    (stepBody unknownToolEnv noDeadlineCtx (initState unknownToolEnv) 1).observation =
      "Error: Unknown tool '" ++ "fetch_data" ++ "'. Please use one of the available tools." ∧
    (stepBody unknownToolEnv noDeadlineCtx (initState unknownToolEnv) 1).history =
      (initState unknownToolEnv).history ++
        [userTurn (initState unknownToolEnv).observation,
         { role := Role.model, content := unknownToolText }] ∧
    (stepBody unknownToolEnv noDeadlineCtx (initState unknownToolEnv) 1).finished = Option.none :=
  unknown_tool_observation unknownToolEnv noDeadlineCtx (initState unknownToolEnv) 1
    unknownToolText unknownToolDecoded
    [("tool", PVal.str "fetch_data"), ("parameters", PVal.dict [])] "fetch_data"
    rfl rfl rfl rfl rfl (by decide) (by decide) (by decide) (by decide) (by decide)
    (by decide) (by decide)

/-- C6: malformed-reply handling. (a) Any failed model phase — transport
failure, a reply with no brace-delimited span, a JSON decode failure — yields
the corrective observation, appends only the user turn, still advances the
step, and the loop continues. (b) A reply with no `{...}` span fails with the
`ValueError` text of line 134, and a decode failure fails with the decoder's
message. (c) Missing `analysis`/`plan` keys default to placeholder text.
(d) A missing `action` key passes the parse layer (`.get` yields `None`) and
surfaces as a dispatch-error observation, the loop continuing. -/
theorem malformed_reply_recovery :
    (∀ (env : Env) (ctx : Ctx) (st : LoopState) (k : Nat) (e : String),
      st.finished = Option.none → deadlineHit env ctx k = false →
      llmPhase env k = LLMPhase.failure e →
      (stepBody env ctx st k).observation = corrective e ∧
      (stepBody env ctx st k).history = st.history ++ [userTurn st.observation] ∧
      (stepBody env ctx st k).modelCalls = st.modelCalls + 1 ∧
      (stepBody env ctx st k).finished = Option.none) ∧
    (∀ (env : Env) (k : Nat) (t : String),
      env.llm k = LLMOutcome.text t → findJsonBlock t = Option.none →
      llmPhase env k = LLMPhase.failure "LLM did not return valid JSON.") ∧
    (∀ (env : Env) (k : Nat) (t js m : String),
      env.llm k = LLMOutcome.text t → findJsonBlock t = some js →
      env.jsonLoads js = Except.error m →
      llmPhase env k = LLMPhase.failure m) ∧
    (∀ es : List (String × PVal),
      (dget es "analysis" = Option.none → getAnalysis es = PVal.str "No analysis provided.") ∧
      (dget es "plan" = Option.none → getPlan es = PVal.str "No plan provided.")) ∧
    (∀ (env : Env) (ctx : Ctx) (st : LoopState) (k : Nat) (js : String)
        (es : List (String × PVal)),
      st.finished = Option.none → deadlineHit env ctx k = false →
      llmPhase env k = LLMPhase.decision js es →
      dget es "action" = Option.none →
      (stepBody env ctx st k).observation =
        "Error: Failed to execute action. Action must be a dict, but got " ++
          pvType PVal.none ∧
      (stepBody env ctx st k).finished = Option.none) := by
  refine ⟨?_, ?_, ?_, ?_, ?_⟩
  · intro env ctx st k e hf hd hphase
    refine ⟨?_, ?_, ?_, ?_⟩ <;> simp [stepBody, hf, hd, hphase]
  · intro env k t hllm hblock
    simp [llmPhase, hllm, hblock]
  · intro env k t js m hllm hblock hdec
    simp [llmPhase, hllm, hblock, hdec]
  · intro es
    constructor
    · intro h
      simp [getAnalysis, h]
    · intro h
      simp [getPlan, h]
  · intro env ctx st k js es hf hd hphase hmiss
    have hdisp : dispatchAction env ctx k PVal.none =
        { observation := "Error: Failed to execute action. Action must be a dict, but got " ++
            pvType PVal.none,
          call := Option.none, spawn := Option.none, exit := Option.none } := by
      simp [dispatchAction, dispatchCore]
      rfl
    constructor <;> simp [stepBody, hf, hd, hphase, hmiss, hdisp]

/-- Environment whose model reply carries no brace-delimited span. -/
def noJsonEnv : Env :=
  { stallEnv with llm := fun _ => LLMOutcome.text "I cannot answer that." }

/-- Environment whose model reply has a brace span that fails JSON decoding. -/
def badJsonEnv : Env :=
  { stallEnv with llm := fun _ => LLMOutcome.text "\x7bnot valid json\x7d" }

/-- Environment whose model reply decodes to an object with no `action` key. -/
def missingActionEnv : Env :=
  { stallEnv with
    llm := fun _ => LLMOutcome.text "\x7b\"analysis\": \"a\"\x7d",
    jsonLoads := fun s =>
      if s == "\x7b\"analysis\": \"a\"\x7d" then Except.ok (PVal.dict [("analysis", PVal.str "a")])
      else Except.error "Expecting value" }

/-- Witness for `malformed_reply_recovery`: each conjunct applied at a concrete
environment — a transport failure, a brace-free reply, an undecodable brace
span, an empty decision object, and a decision with no `action` key. -/
theorem malformed_reply_recovery_witness :
    ((stepBody stallEnv noDeadlineCtx (initState stallEnv) 1).observation =
      corrective "connection reset" ∧
     (stepBody stallEnv noDeadlineCtx (initState stallEnv) 1).history =
      (initState stallEnv).history ++ [userTurn (initState stallEnv).observation] ∧
     (stepBody stallEnv noDeadlineCtx (initState stallEnv) 1).modelCalls =
      (initState stallEnv).modelCalls + 1 ∧
     (stepBody stallEnv noDeadlineCtx (initState stallEnv) 1).finished = Option.none) ∧
    llmPhase noJsonEnv 1 = LLMPhase.failure "LLM did not return valid JSON." ∧
    llmPhase badJsonEnv 1 = LLMPhase.failure "Expecting value" ∧
    (getAnalysis [] = PVal.str "No analysis provided." ∧
     getPlan [] = PVal.str "No plan provided.") ∧
    ((stepBody missingActionEnv noDeadlineCtx (initState missingActionEnv) 1).observation =
      "Error: Failed to execute action. Action must be a dict, but got " ++ pvType PVal.none ∧
     (stepBody missingActionEnv noDeadlineCtx (initState missingActionEnv) 1).finished =
      Option.none) :=
  ⟨malformed_reply_recovery.1 stallEnv noDeadlineCtx (initState stallEnv) 1
      "connection reset" rfl rfl rfl,
   malformed_reply_recovery.2.1 noJsonEnv 1 "I cannot answer that." rfl rfl,
   malformed_reply_recovery.2.2.1 badJsonEnv 1 "\x7bnot valid json\x7d" "\x7bnot valid json\x7d"
      "Expecting value" rfl rfl rfl,
   ⟨(malformed_reply_recovery.2.2.2.1 []).1 rfl, (malformed_reply_recovery.2.2.2.1 []).2 rfl⟩,
   malformed_reply_recovery.2.2.2.2 missingActionEnv noDeadlineCtx
      (initState missingActionEnv) 1 "\x7b\"analysis\": \"a\"\x7d" [("analysis", PVal.str "a")]
      rfl rfl rfl rfl⟩

/-- C3: a `submit_answer` dispatch whose executor response parses to a JSON
object with truthy `correct` and a truthy `url` spawns exactly one chained run
targeting that url, with deadline `time.time() + 170` — strictly later than
the spawn time — and the current run's loop exits: the state is marked
finished with `success` and every remaining iteration is a no-op. -/
theorem submit_correct_with_url_spawns_once (env : Env) (ctx : Ctx) (st : LoopState)
    (k : Nat) (js : String) (es aes res : List (String × PVal)) (args su ap nu : PVal)
    (hf : st.finished = Option.none)
    (hd : deadlineHit env ctx k = false)
    (hllm : llmPhase env k = LLMPhase.decision js es)
    (hact : (dget es "action").getD PVal.none = PVal.dict aes)
    (htool : resolveToolName aes = PVal.str "submit_answer")
    (hnorm : normalizeUrlArgs env ctx (PVal.str "submit_answer") (resolveArgs (PVal.dict aes)) =
      Except.ok args)
    (hsu : pvIndex args "submit_url" = Except.ok su)
    (hap : pvIndex args "answer_payload" = Except.ok ap)
    (hparse : env.jsonLoads (pyStrip (splitOnceLast (env.toolRes k) "Submission response:")) =
      Except.ok (PVal.dict res))
    (hc : pvTruthy ((dget res "correct").getD (PVal.bool false)) = true)
    (hnu : (dget res "url").getD PVal.none = nu)
    (hnut : pvTruthy nu = true) :
    (stepBody env ctx st k).spawns = st.spawns ++ [(nu, env.now2 k + 170)] ∧
    env.now2 k + 170 > env.now2 k ∧
    (stepBody env ctx st k).calls = st.calls ++ [ToolCall.submit su ap] ∧
    (stepBody env ctx st k).finished = some ExitKind.success ∧
    ∀ ks : List Nat,
      ks.foldl (stepBody env ctx) (stepBody env ctx st k) = stepBody env ctx st k := by
  have hroute : submitRouting env k (env.toolRes k) =
      (some (nu, env.now2 k + 170), some ExitKind.success) := by
    simp [submitRouting, hparse, hc, hnu, hnut]
  have hdisp : dispatchAction env ctx k (PVal.dict aes) =
      { observation := env.toolRes k, call := some (ToolCall.submit su ap),
        spawn := some (nu, env.now2 k + 170), exit := some ExitKind.success } := by
    simp +decide [dispatchAction, dispatchCore, htool, hnorm, hsu, hap, hroute, pvIsStr, pvTruthy]
  have hfin : (stepBody env ctx st k).finished = some ExitKind.success := by
    simp [stepBody, hf, hd, hllm, hact, hdisp]
  refine ⟨?_, by omega, ?_, hfin, ?_⟩
  · simp [stepBody, hf, hd, hllm, hact, hdisp]
  · simp [stepBody, hf, hd, hllm, hact, hdisp]
  · intro ks
    exact foldl_finished env ctx _ ks (by simp [hfin])

/-- A model reply deciding on a `submit_answer` call. -/
def submitDecisionText : String :=
  "\x7b\"analysis\": \"a\", \"plan\": \"p\", \"action\": \x7b\"tool\": \"submit_answer\", \"parameters\": \x7b\"submit_url\": \"https://host/submit\", \"answer_payload\": \x7b\"answer\": 7\x7d\x7d\x7d\x7d"

/-- The parameter mapping of `submitDecisionText`'s action. -/
def submitActionParams : List (String × PVal) :=
  [("submit_url", PVal.str "https://host/submit"),
   ("answer_payload", PVal.dict [("answer", PVal.num 7)])]

/-- The decoded action object of `submitDecisionText`. -/
def submitActionObj : List (String × PVal) :=
  [("tool", PVal.str "submit_answer"), ("parameters", PVal.dict submitActionParams)]

/-- The decoded decision object of `submitDecisionText`. -/
def submitDecisionDecoded : List (String × PVal) :=
  [("analysis", PVal.str "a"), ("plan", PVal.str "p"), ("action", PVal.dict submitActionObj)]

/-- A correct-with-next-url submission response body. -/
def okResponseBody : String := "\x7b\"correct\": true, \"url\": \"https://x/next\"\x7d"

/-- The decoded object of `okResponseBody`. -/
def okResponseDecoded : List (String × PVal) :=
  [("correct", PVal.bool true), ("url", PVal.str "https://x/next")]

/-- Environment in which the model submits and the server answers correct with
a next url; its clock reads 1000 where the fresh deadline is computed. -/
def submitOkEnv : Env :=
  { initObs := "page", now1 := fun _ => 0, now2 := fun _ => 1000,
    llm := fun _ => LLMOutcome.text submitDecisionText,
    toolRes := fun _ => "Submission response: " ++ okResponseBody,
    jsonLoads := fun s =>
      if s == submitDecisionText then Except.ok (PVal.dict submitDecisionDecoded)
      else if s == okResponseBody then Except.ok (PVal.dict okResponseDecoded)
      else Except.error "Expecting value",
    urljoin := fun _ r => r }

set_option maxRecDepth 8192 in
/-- Witness for `submit_correct_with_url_spawns_once`: the concrete correct
submission with next url `https://x/next` at spawn time 1000, with the
loop-exit conjunct instantiated at the iteration suffix `[2, 3]`. -/
theorem submit_correct_with_url_spawns_once_witness :
    (stepBody submitOkEnv noDeadlineCtx (initState submitOkEnv) 1).spawns =
      (initState submitOkEnv).spawns ++ [(PVal.str "https://x/next", submitOkEnv.now2 1 + 170)] ∧
    submitOkEnv.now2 1 + 170 > submitOkEnv.now2 1 ∧
    (stepBody submitOkEnv noDeadlineCtx (initState submitOkEnv) 1).calls =
      (initState submitOkEnv).calls ++
        [ToolCall.submit (PVal.str "https://host/submit") (PVal.dict [("answer", PVal.num 7)])] ∧
    (stepBody submitOkEnv noDeadlineCtx (initState submitOkEnv) 1).finished =
      some ExitKind.success ∧
    ([2, 3].foldl (stepBody submitOkEnv noDeadlineCtx)
        (stepBody submitOkEnv noDeadlineCtx (initState submitOkEnv) 1)) =
      stepBody submitOkEnv noDeadlineCtx (initState submitOkEnv) 1 := by
  have h := submit_correct_with_url_spawns_once submitOkEnv noDeadlineCtx
    (initState submitOkEnv) 1 submitDecisionText submitDecisionDecoded submitActionObj
    okResponseDecoded (PVal.dict submitActionParams) (PVal.str "https://host/submit")
    (PVal.dict [("answer", PVal.num 7)]) (PVal.str "https://x/next")
    rfl rfl rfl rfl rfl rfl rfl rfl rfl rfl rfl rfl
  exact ⟨h.1, h.2.1, h.2.2.1, h.2.2.2.1, h.2.2.2.2 [2, 3]⟩

/-- C4: routing after a `submit_answer` dispatch. When the executor response
decodes to an object with `correct: false` and no `url`, the run does not
terminate: the loop keeps running with the submission response text as the
observation and spawns nothing. When the response text fails JSON decoding,
the run breaks fatally: no remaining iteration does anything, so there is no
retry. -/
theorem submit_incorrect_routing (env : Env) (ctx : Ctx) (st : LoopState)
    (k : Nat) (js : String) (es aes : List (String × PVal)) (args su ap : PVal)
    (hf : st.finished = Option.none)
    (hd : deadlineHit env ctx k = false)
    (hllm : llmPhase env k = LLMPhase.decision js es)
    (hact : (dget es "action").getD PVal.none = PVal.dict aes)
    (htool : resolveToolName aes = PVal.str "submit_answer")
    (hnorm : normalizeUrlArgs env ctx (PVal.str "submit_answer") (resolveArgs (PVal.dict aes)) =
      Except.ok args)
    (hsu : pvIndex args "submit_url" = Except.ok su)
    (hap : pvIndex args "answer_payload" = Except.ok ap) :
    (∀ res : List (String × PVal),
      env.jsonLoads (pyStrip (splitOnceLast (env.toolRes k) "Submission response:")) =
        Except.ok (PVal.dict res) →
      dget res "correct" = some (PVal.bool false) →
      dget res "url" = Option.none →
      (stepBody env ctx st k).finished = Option.none ∧
      (stepBody env ctx st k).observation = env.toolRes k ∧
      (stepBody env ctx st k).spawns = st.spawns) ∧
    (∀ m : String,
      env.jsonLoads (pyStrip (splitOnceLast (env.toolRes k) "Submission response:")) =
        Except.error m →
      (stepBody env ctx st k).finished = some ExitKind.fatalParse ∧
      ∀ ks : List Nat,
        ks.foldl (stepBody env ctx) (stepBody env ctx st k) = stepBody env ctx st k) := by
  constructor
  · intro res hparse hc hu
    have hroute : submitRouting env k (env.toolRes k) = (Option.none, Option.none) := by
      simp [submitRouting, hparse, hc, hu, pvTruthy]
    have hdisp : dispatchAction env ctx k (PVal.dict aes) =
        { observation := env.toolRes k, call := some (ToolCall.submit su ap),
          spawn := Option.none, exit := Option.none } := by
      simp +decide [dispatchAction, dispatchCore, htool, hnorm, hsu, hap, hroute,
        pvIsStr, pvTruthy]
    refine ⟨?_, ?_, ?_⟩ <;> simp [stepBody, hf, hd, hllm, hact, hdisp]
  · intro m hparse
    have hroute : submitRouting env k (env.toolRes k) =
        (Option.none, some ExitKind.fatalParse) := by
      simp [submitRouting, hparse]
    have hdisp : dispatchAction env ctx k (PVal.dict aes) =
        { observation := env.toolRes k, call := some (ToolCall.submit su ap),
          spawn := Option.none, exit := some ExitKind.fatalParse } := by
      simp +decide [dispatchAction, dispatchCore, htool, hnorm, hsu, hap, hroute,
        pvIsStr, pvTruthy]
    have hfin : (stepBody env ctx st k).finished = some ExitKind.fatalParse := by
      simp [stepBody, hf, hd, hllm, hact, hdisp]
    exact ⟨hfin, fun ks => foldl_finished env ctx _ ks (by simp [hfin])⟩

/-- An incorrect-without-url submission response body. -/
def wrongResponseBody : String := "\x7b\"correct\": false, \"reason\": \"nope\"\x7d"

/-- The decoded object of `wrongResponseBody`. -/
def wrongResponseDecoded : List (String × PVal) :=
  [("correct", PVal.bool false), ("reason", PVal.str "nope")]

/-- Environment in which the model submits and the server answers incorrect
with no next url. -/
def submitWrongEnv : Env :=
  { submitOkEnv with
    toolRes := fun _ => "Submission response: " ++ wrongResponseBody,
    jsonLoads := fun s =>
      if s == submitDecisionText then Except.ok (PVal.dict submitDecisionDecoded)
      else if s == wrongResponseBody then Except.ok (PVal.dict wrongResponseDecoded)
      else Except.error "Expecting value" }

/-- Environment in which the model submits and the server answer is not JSON. -/
def submitGarbledEnv : Env :=
  { submitOkEnv with
    toolRes := fun _ => "Submission response: <html>Service Unavailable</html>",
    jsonLoads := fun s =>
      if s == submitDecisionText then Except.ok (PVal.dict submitDecisionDecoded)
      else Except.error "Expecting value: line 1 column 1 (char 0)" }

set_option maxRecDepth 8192 in
/-- Witness for `submit_incorrect_routing`: the incorrect-no-url response at a
concrete run (loop continues, nothing spawned) and the undecodable response at
another (fatal break, the suffix `[2, 3]` a no-op). -/
theorem submit_incorrect_routing_witness :
    ((stepBody submitWrongEnv noDeadlineCtx (initState submitWrongEnv) 1).finished =
      Option.none ∧
     (stepBody submitWrongEnv noDeadlineCtx (initState submitWrongEnv) 1).observation =
      submitWrongEnv.toolRes 1 ∧
     (stepBody submitWrongEnv noDeadlineCtx (initState submitWrongEnv) 1).spawns =
      (initState submitWrongEnv).spawns) ∧
    ((stepBody submitGarbledEnv noDeadlineCtx (initState submitGarbledEnv) 1).finished =
      some ExitKind.fatalParse ∧
     ([2, 3].foldl (stepBody submitGarbledEnv noDeadlineCtx)
        (stepBody submitGarbledEnv noDeadlineCtx (initState submitGarbledEnv) 1)) =
      stepBody submitGarbledEnv noDeadlineCtx (initState submitGarbledEnv) 1) := by
  have h1 := (submit_incorrect_routing submitWrongEnv noDeadlineCtx
    (initState submitWrongEnv) 1 submitDecisionText submitDecisionDecoded submitActionObj
    (PVal.dict submitActionParams) (PVal.str "https://host/submit")
    (PVal.dict [("answer", PVal.num 7)])
    rfl rfl rfl rfl rfl rfl rfl rfl).1 wrongResponseDecoded rfl rfl rfl
  have h2 := (submit_incorrect_routing submitGarbledEnv noDeadlineCtx
    (initState submitGarbledEnv) 1 submitDecisionText submitDecisionDecoded submitActionObj
    (PVal.dict submitActionParams) (PVal.str "https://host/submit")
    (PVal.dict [("answer", PVal.num 7)])
    rfl rfl rfl rfl rfl rfl rfl rfl).2 "Expecting value: line 1 column 1 (char 0)" rfl
  exact ⟨⟨h1.1, h1.2.1, h1.2.2⟩, ⟨h2.1, h2.2 [2, 3]⟩⟩
